import Mathlib

/-!
Verification of the tickets-v4 trading core against its specification.

The development shallowly embeds the JavaScript source:
* `TechnicalAnalysis` (dist/mapdata.js): `calculateSMA`, `calculateRSI`;
* `AIDecisionEngine` (dist/mapdata.js): per-indicator signal rules,
  `evaluateTechnicalSignals`, `combineSignals`;
* `RiskManager` (src/trading/risk-manager.js): `assessMarketConditions`,
  `checkPortfolioExposure`, `assessSignalQuality`, `calculatePositionSize`,
  `calculateKellyPosition`, `checkCorrelationRisk`, `assessPlatformRisk`,
  `evaluateOpportunity`.

JavaScript numbers are modelled as exact rationals, except where division
by zero or a missing (`undefined`) field makes IEEE special values
observable; there the type `JsNum` (finite / infinity / NaN) mirrors the
IEEE behaviour of the source.  External collaborators (market data,
portfolio storage, correlation feeds) are modelled as explicit inputs.
-/

/-- IEEE-style JavaScript number: a finite rational, an infinity, or NaN. -/
inductive JsNum where
  | num : ℚ → JsNum
  | posInf : JsNum
  | negInf : JsNum
  | nan : JsNum
deriving DecidableEq

/-- JS addition, with IEEE special-value rules. -/
def jadd : JsNum → JsNum → JsNum
  | JsNum.num a, JsNum.num b => JsNum.num (a + b)
  | JsNum.nan, _ => JsNum.nan
  | _, JsNum.nan => JsNum.nan
  | JsNum.posInf, JsNum.negInf => JsNum.nan
  | JsNum.negInf, JsNum.posInf => JsNum.nan
  | JsNum.posInf, _ => JsNum.posInf
  | _, JsNum.posInf => JsNum.posInf
  | JsNum.negInf, _ => JsNum.negInf
  | _, JsNum.negInf => JsNum.negInf

/-- JS negation. -/
def jneg : JsNum → JsNum
  | JsNum.num a => JsNum.num (-a)
  | JsNum.posInf => JsNum.negInf
  | JsNum.negInf => JsNum.posInf
  | JsNum.nan => JsNum.nan

/-- JS subtraction. -/
def jsub (a b : JsNum) : JsNum := jadd a (jneg b)

/-- JS multiplication, with IEEE special-value rules. -/
def jmul : JsNum → JsNum → JsNum
  | JsNum.num a, JsNum.num b => JsNum.num (a * b)
  | JsNum.nan, _ => JsNum.nan
  | _, JsNum.nan => JsNum.nan
  | JsNum.num a, JsNum.posInf =>
      if a = 0 then JsNum.nan else if 0 < a then JsNum.posInf else JsNum.negInf
  | JsNum.posInf, JsNum.num a =>
      if a = 0 then JsNum.nan else if 0 < a then JsNum.posInf else JsNum.negInf
  | JsNum.num a, JsNum.negInf =>
      if a = 0 then JsNum.nan else if 0 < a then JsNum.negInf else JsNum.posInf
  | JsNum.negInf, JsNum.num a =>
      if a = 0 then JsNum.nan else if 0 < a then JsNum.negInf else JsNum.posInf
  | JsNum.posInf, JsNum.posInf => JsNum.posInf
  | JsNum.negInf, JsNum.negInf => JsNum.posInf
  | JsNum.posInf, JsNum.negInf => JsNum.negInf
  | JsNum.negInf, JsNum.posInf => JsNum.negInf

/-- JS division, with IEEE special-value rules (rational zero is `+0`). -/
def jdiv : JsNum → JsNum → JsNum
  | JsNum.nan, _ => JsNum.nan
  | _, JsNum.nan => JsNum.nan
  | JsNum.num a, JsNum.num b =>
      if b = 0 then
        (if a = 0 then JsNum.nan else if 0 < a then JsNum.posInf else JsNum.negInf)
      else JsNum.num (a / b)
  | JsNum.num _, JsNum.posInf => JsNum.num 0
  | JsNum.num _, JsNum.negInf => JsNum.num 0
  | JsNum.posInf, JsNum.num b => if 0 ≤ b then JsNum.posInf else JsNum.negInf
  | JsNum.negInf, JsNum.num b => if 0 ≤ b then JsNum.negInf else JsNum.posInf
  | JsNum.posInf, _ => JsNum.nan
  | JsNum.negInf, _ => JsNum.nan

/-- JS strict less-than: any comparison with NaN is false. -/
def jlt : JsNum → JsNum → Bool
  | JsNum.num a, JsNum.num b => decide (a < b)
  | JsNum.nan, _ => false
  | _, JsNum.nan => false
  | JsNum.negInf, JsNum.negInf => false
  | JsNum.negInf, _ => true
  | _, JsNum.negInf => false
  | JsNum.posInf, _ => false
  | _, JsNum.posInf => true

/-- JS strict greater-than. -/
def jgt (a b : JsNum) : Bool := jlt b a

/-- JS `Math.min`: NaN-propagating minimum. -/
def jmin : JsNum → JsNum → JsNum
  | JsNum.nan, _ => JsNum.nan
  | _, JsNum.nan => JsNum.nan
  | a, b => if jlt b a then b else a

/-- JS `Math.max`: NaN-propagating maximum. -/
def jmax : JsNum → JsNum → JsNum
  | JsNum.nan, _ => JsNum.nan
  | _, JsNum.nan => JsNum.nan
  | a, b => if jlt a b then b else a

/-- A possibly-missing numeric field of a JS object; arithmetic on a
missing (`undefined`) field yields NaN. -/
def jofOpt : Option ℚ → JsNum
  | some q => JsNum.num q
  | none => JsNum.nan

/-- Embeds `TechnicalAnalysis.calculateSMA(prices, period)`: empty when the series
is shorter than the period, otherwise one trailing-window average per
index from `period - 1` to the end. -/
def calculateSMA (prices : List ℚ) (period : ℕ) : List ℚ :=
  if prices.length < period then []
  else
    (List.range (prices.length - period + 1)).map (fun j =>
      ((prices.drop j).take period).sum / (period : ℚ))

/-- One RSI output value `100 - 100 / (1 + avgGain / avgLoss)`, computed
with JS division semantics (the source has no guard for `avgLoss = 0`). -/
def rsiValue (avgGain avgLoss : ℚ) : JsNum :=
  jsub (JsNum.num 100)
    (jdiv (JsNum.num 100) (jadd (JsNum.num 1) (jdiv (JsNum.num avgGain) (JsNum.num avgLoss))))

/-- The Wilder-smoothing loop of `calculateRSI`: folds the remaining
(gain, loss) pairs, emitting one RSI value per step. -/
def rsiLoop (period : ℕ) (avgGain avgLoss : ℚ) : List (ℚ × ℚ) → List JsNum
  | [] => []
  | (g, l) :: rest =>
      let aG := (avgGain * ((period : ℚ) - 1) + g) / (period : ℚ)
      let aL := (avgLoss * ((period : ℚ) - 1) + l) / (period : ℚ)
      rsiValue aG aL :: rsiLoop period aG aL rest

/-- Embeds `TechnicalAnalysis.calculateRSI(prices, period)`: empty when fewer than
`period + 1` prices; first value from plain averages of the first `period`
gains/losses, later values by Wilder smoothing. -/
def calculateRSI (prices : List ℚ) (period : ℕ) : List JsNum :=
  if prices.length < period + 1 then []
  else
    let changes := List.zipWith (fun a b => a - b) (prices.drop 1) prices
    let gains := changes.map (fun c => if 0 < c then c else 0)
    let losses := changes.map (fun c => if c < 0 then -c else 0)
    let avgGain := (gains.take period).sum / (period : ℚ)
    let avgLoss := (losses.take period).sum / (period : ℚ)
    rsiValue avgGain avgLoss :: rsiLoop period avgGain avgLoss ((gains.zip losses).drop period)

/-- JS `String.prototype.includes` on character lists: does `hay` contain
`need` as a contiguous substring? -/
def listIncludes (need : List Char) : List Char → Bool
  | [] => need.isEmpty
  | c :: t => need.isPrefixOf (c :: t) || listIncludes need t

/-- JS `hay.includes(need)` for strings. -/
def strIncludes (hay need : String) : Bool :=
  listIncludes need.toList hay.toList

/-- A per-indicator signal `{ signal, strength }` as produced by the
`getXSignal` rules of `AIDecisionEngine`. -/
structure SigStr where
  signal : String
  strength : ℚ
deriving DecidableEq

/-- Input of `AIDecisionEngine.getVolumeSignal`. -/
structure VolumeAnalysis where
  trend : String
  strength : String
  unusualActivity : Bool
deriving DecidableEq

/-- Embeds `AIDecisionEngine.getVolumeSignal(volumeAnalysis)`. -/
def getVolumeSignal (v : VolumeAnalysis) : SigStr :=
  if v.unusualActivity && v.trend = "INCREASING" then ⟨"STRONG_SIGNAL", 9/10⟩
  else if v.strength = "HIGH" && v.trend = "INCREASING" then ⟨"CONFIRMATION", 7/10⟩
  else if v.strength = "LOW" then ⟨"WEAK_SIGNAL", 3/10⟩
  else ⟨"NEUTRAL", 1/2⟩

/-- One Bollinger-band record `{ upper, middle, lower }`. -/
structure BollingerBand where
  upper : ℚ
  middle : ℚ
  lower : ℚ
deriving DecidableEq

/-- Embeds `AIDecisionEngine.getBollingerSignal(currentPrice, bb)`. -/
def getBollingerSignal (currentPrice : ℚ) (bb : BollingerBand) : SigStr :=
  if currentPrice ≤ bb.lower then ⟨"BUY", 7/10⟩
  else if currentPrice ≥ bb.upper then ⟨"SELL", 7/10⟩
  else if bb.middle < currentPrice then ⟨"WEAK_BUY", 2/5⟩
  else if currentPrice < bb.middle then ⟨"WEAK_SELL", 2/5⟩
  else ⟨"HOLD", 3/10⟩

/-- The signal labels that the `getXSignal` rules of the source can emit. -/
def realLabels : List String :=
  ["BUY", "SELL", "HOLD", "WEAK_BUY", "WEAK_SELL",
   "STRONG_SIGNAL", "CONFIRMATION", "WEAK_SIGNAL", "NEUTRAL", "NONE"]

/-- The BUY bucket of `evaluateTechnicalSignals`: labels containing
the substring BUY. -/
def techBuySignals (signals : List SigStr) : List SigStr :=
  signals.filter (fun s => strIncludes s.signal "BUY")

/-- The SELL bucket: labels not containing BUY but containing SELL
(the source tests BUY first in an if/else-if chain). -/
def techSellSignals (signals : List SigStr) : List SigStr :=
  signals.filter (fun s => !strIncludes s.signal "BUY" && strIncludes s.signal "SELL")

/-- The HOLD bucket: all remaining labels. -/
def techHoldSignals (signals : List SigStr) : List SigStr :=
  signals.filter (fun s => !strIncludes s.signal "BUY" && !strIncludes s.signal "SELL")

/-- Sum of the strengths of a bucket (`reduce((sum, s) => sum + s, 0)`). -/
def strengthSum (bucket : List SigStr) : ℚ :=
  bucket.foldl (fun acc s => acc + s.strength) 0

/-- Scores record `{ buy, sell, hold }` of the technical verdict. -/
structure TechScores where
  buy : ℚ
  sell : ℚ
  hold : ℚ
deriving DecidableEq

/-- Output of `evaluateTechnicalSignals`: note that the record carries a
`signal`, a `confidence` and the `scores`, but no `strength` field. -/
structure TechResult where
  signal : String
  confidence : JsNum
  scores : TechScores
deriving DecidableEq

/-- Embeds `AIDecisionEngine.evaluateTechnicalSignals(signals)`: bucket the
per-indicator signals by label substring, sum the strengths, and pick the
strictly largest bucket (ties fall through to HOLD); confidence is the
winning sum over the total sum (JS division: 0/0 is NaN). -/
def evaluateTechnicalSignals (signals : List SigStr) : TechResult :=
  let buyScore := strengthSum (techBuySignals signals)
  let sellScore := strengthSum (techSellSignals signals)
  let holdScore := strengthSum (techHoldSignals signals)
  let totalScore := buyScore + sellScore + holdScore
  if buyScore > sellScore ∧ buyScore > holdScore then
    ⟨"BUY", jdiv (JsNum.num buyScore) (JsNum.num totalScore), ⟨buyScore, sellScore, holdScore⟩⟩
  else if sellScore > buyScore ∧ sellScore > holdScore then
    ⟨"SELL", jdiv (JsNum.num sellScore) (JsNum.num totalScore), ⟨buyScore, sellScore, holdScore⟩⟩
  else
    ⟨"HOLD", jdiv (JsNum.num holdScore) (JsNum.num totalScore), ⟨buyScore, sellScore, holdScore⟩⟩

/-- The sentiment verdict consumed by the combiner:
`sentiment.overall = { score, confidence, signal: { signal, strength } }`. -/
structure SentOverall where
  score : ℚ
  confidence : ℚ
  signal : SigStr
deriving DecidableEq

/-- The ML verdict consumed by the combiner:
`{ signal: { signal, strength }, volatility, confidence }`; `volatility`
is `none` when the field is absent. -/
structure MlResult where
  signal : SigStr
  volatility : Option String
  confidence : ℚ
deriving DecidableEq

/-- The value `performMLAnalysis` returns when the prediction collaborator
throws: direction NEUTRAL, volatility MEDIUM, confidence 0 and the signal
`{ signal: HOLD, strength: 0 }`. -/
def mlFailed : MlResult :=
  { signal := ⟨"HOLD", 0⟩, volatility := some "MEDIUM", confidence := 0 }

/-- A weighted entry of the `signals` array in `combineSignals`.  The
`strength` is optional because the technical entry is spread from
`technical.overall`, which has no `strength` field (it is `undefined`). -/
structure WSignal where
  signal : String
  strength : Option ℚ
  weight : ℚ
deriving DecidableEq

/-- Embeds `signals.filter(s => s.signal === lbl).reduce((sum, s) => sum + (s.strength * s.weight), 0)`
with JS arithmetic (`undefined * w` is NaN). -/
def bucketScore (lbl : String) (signals : List WSignal) : JsNum :=
  (signals.filter (fun s => s.signal = lbl)).foldl
    (fun acc s => jadd acc (jmul (jofOpt s.strength) (JsNum.num s.weight))) (JsNum.num 0)

/-- The `reasoning` record of the composite decision. -/
structure CombineReasons where
  technicalScore : JsNum
  sentimentScore : ℚ
  mlScore : ℚ
  buy : JsNum
  sell : JsNum
  hold : JsNum
deriving DecidableEq

/-- The composite decision returned by `combineSignals`. -/
structure CombineResult where
  signal : String
  confidence : JsNum
  orderType : String
  stopLoss : Option ℚ
  takeProfit : Option ℚ
  reasoning : CombineReasons
deriving DecidableEq

/-- The weighted `signals` array built at the top of `combineSignals`:
technical (weight 0.5, no strength field), sentiment signal (0.3),
ML signal (0.2). -/
def combineEntries (technical : TechResult) (sentiment : SentOverall) (ml : MlResult) :
    List WSignal :=
  [{ signal := technical.signal, strength := none, weight := 1/2 },
   { signal := sentiment.signal.signal, strength := some sentiment.signal.strength, weight := 3/10 },
   { signal := ml.signal.signal, strength := some ml.signal.strength, weight := 1/5 }]

/-- Embeds `AIDecisionEngine.combineSignals(technical, sentiment, ml)`. -/
def combineSignals (technical : TechResult) (sentiment : SentOverall) (ml : MlResult) :
    CombineResult :=
  let signals := combineEntries technical sentiment ml
  let buyScore := bucketScore "BUY" signals
  let sellScore := bucketScore "SELL" signals
  let holdScore := bucketScore "HOLD" signals
  let totalWeight : ℚ := signals.foldl (fun acc s => acc + s.weight) 0
  let neutralWeight : ℚ := 1 - totalWeight
  let adjustedHoldScore := jadd holdScore (JsNum.num (neutralWeight * (1/2)))
  let step : String × JsNum × String :=
    if jgt buyScore sellScore && jgt buyScore adjustedHoldScore && jgt buyScore (JsNum.num (3/5)) then
      let conf := jmin buyScore (JsNum.num (19/20))
      ("BUY", conf, if jgt conf (JsNum.num (4/5)) then "MARKET" else "LIMIT")
    else if jgt sellScore buyScore && jgt sellScore adjustedHoldScore && jgt sellScore (JsNum.num (3/5)) then
      let conf := jmin sellScore (JsNum.num (19/20))
      ("SELL", conf, if jgt conf (JsNum.num (4/5)) then "MARKET" else "LIMIT")
    else
      ("HOLD", jmax adjustedHoldScore (JsNum.num (3/10)), "MARKET")
  let volatilityMultiplier : ℚ :=
    if ml.volatility = some "HIGH" then 3/2 else if ml.volatility = some "LOW" then 7/10 else 1
  let stopLoss : Option ℚ :=
    if step.1 ≠ "HOLD" ∧ ml.volatility.isSome then
      some (if jgt step.2.1 (JsNum.num (4/5)) then (1/50) * volatilityMultiplier
            else (3/200) * volatilityMultiplier)
    else none
  let takeProfit : Option ℚ :=
    if step.1 ≠ "HOLD" ∧ ml.volatility.isSome then
      some (if jgt step.2.1 (JsNum.num (4/5)) then (1/25) * volatilityMultiplier
            else (3/100) * volatilityMultiplier)
    else none
  { signal := step.1
    confidence := step.2.1
    orderType := step.2.2
    stopLoss := stopLoss
    takeProfit := takeProfit
    reasoning :=
      { technicalScore := technical.confidence
        sentimentScore := sentiment.confidence
        mlScore := ml.confidence
        buy := buyScore
        sell := sellScore
        hold := adjustedHoldScore } }

/-- Market risk levels used by `RiskManager` (LOW < MEDIUM < HIGH < EXTREME). -/
inductive RiskLvl where
  | LOW : RiskLvl
  | MEDIUM : RiskLvl
  | HIGH : RiskLvl
  | EXTREME : RiskLvl
deriving DecidableEq

/-- Numeric rank of a risk level, for comparisons. -/
def riskRank : RiskLvl → ℕ
  | RiskLvl.LOW => 0
  | RiskLvl.MEDIUM => 1
  | RiskLvl.HIGH => 2
  | RiskLvl.EXTREME => 3

/-- The market-condition snapshot consumed by `assessMarketConditions`
(supplied by the market-data collaborator). -/
structure MarketConditions where
  volatility : ℚ
  majorEvents : List String
  isMarketHours : Bool
  liquidityScore : ℚ
deriving DecidableEq

/-- The volatility assessment step: `> 0.4` is HIGH, `> 0.25` MEDIUM. -/
def volatilityLevel (v : ℚ) : RiskLvl :=
  if v > 2/5 then RiskLvl.HIGH else if v > 1/4 then RiskLvl.MEDIUM else RiskLvl.LOW

/-- The economic-events step: scheduled events raise HIGH to EXTREME and
anything else to HIGH. -/
def eventsStep (l : RiskLvl) (majorEvents : List String) : RiskLvl :=
  if majorEvents.length > 0 then (if l = RiskLvl.HIGH then RiskLvl.EXTREME else RiskLvl.HIGH) else l

/-- The market-hours step: outside market hours, LOW becomes MEDIUM. -/
def hoursStep (l : RiskLvl) (isMarketHours : Bool) : RiskLvl :=
  if !isMarketHours then (if l = RiskLvl.LOW then RiskLvl.MEDIUM else l) else l

/-- The liquidity step: a liquidity score below 0.5 raises HIGH to EXTREME
and anything else to HIGH. -/
def liquidityStep (l : RiskLvl) (liquidityScore : ℚ) : RiskLvl :=
  if liquidityScore < 1/2 then (if l = RiskLvl.HIGH then RiskLvl.EXTREME else RiskLvl.HIGH) else l

/-- The risk level computed by `RiskManager.assessMarketConditions`,
applying the four escalation steps of the source in order. -/
def marketRiskLevel (c : MarketConditions) : RiskLvl :=
  liquidityStep (hoursStep (eventsStep (volatilityLevel c.volatility) c.majorEvents)
    c.isMarketHours) c.liquidityScore

/-- Output of `assessMarketConditions`: the level and the risk factors. -/
structure MarketRisk where
  level : RiskLvl
  factors : List String
deriving DecidableEq

/-- Embeds `RiskManager.assessMarketConditions()`, as a function of the
collaborator-supplied conditions. -/
def assessMarketConditions (c : MarketConditions) : MarketRisk :=
  { level := marketRiskLevel c
    factors :=
      (if c.volatility > 2/5 then ["High market volatility"]
       else if c.volatility > 1/4 then ["Elevated market volatility"] else []) ++
      (if c.majorEvents.length > 0 then ["Major economic events scheduled"] else []) ++
      (if !c.isMarketHours then ["Trading outside market hours"] else []) ++
      (if c.liquidityScore < 1/2 then ["Low market liquidity"] else []) }

/-- JS `x || d` for an optional numeric configuration field: a missing
field or a zero value falls back to the default. -/
def jsOr (o : Option ℚ) (d : ℚ) : ℚ :=
  match o with
  | none => d
  | some v => if v = 0 then d else v

/-- Embeds `map.get(key) || 0` on an association-list snapshot. -/
def lookupQ (m : List (String × ℚ)) (k : String) : ℚ :=
  match m.lookup k with
  | some v => v
  | none => 0

/-- The fixed sector map of `RiskManager.getAssetSector`. -/
def getAssetSector (symbol : String) : Option String :=
  if symbol = "AAPL" then some "Technology"
  else if symbol = "GOOGL" then some "Technology"
  else if symbol = "MSFT" then some "Technology"
  else if symbol = "BTC" then some "Cryptocurrency"
  else if symbol = "ETH" then some "Cryptocurrency"
  else none

/-- JS `Number.prototype.toFixed(1)` for the non-negative rationals that
occur in the exposure messages: round to one decimal place. -/
def toFixed1 (q : ℚ) : String :=
  let n : ℕ := (⌊q * 10 + 1/2⌋).toNat
  toString (n / 10) ++ "." ++ toString (n % 10)

/-- A fraction rendered as a percentage with one decimal, as in
`(x * 100).toFixed(1)`. -/
def pctStr (q : ℚ) : String := toFixed1 (q * 100)

/-- The `riskSettings` block of the trading configuration. -/
structure RiskSettings where
  maxPositionSize : ℚ
  maxDailyLoss : ℚ
  maxTotalExposure : ℚ
  stopLossPercentage : ℚ
  maxSectorExposure : Option ℚ
  useKellyCriterion : Bool
  minTradeValue : Option ℚ
  maxTradeValue : Option ℚ
deriving DecidableEq

/-- The `tradingSettings` block: optional symbol white/black lists. -/
structure TradingSettings where
  allowedSymbols : Option (List String)
  blockedSymbols : Option (List String)
deriving DecidableEq

/-- The validated trading configuration consumed by the risk evaluator. -/
structure TradingConfig where
  riskSettings : RiskSettings
  tradingSettings : TradingSettings
deriving DecidableEq

/-- The current portfolio exposure snapshot (total and per-asset /
per-sector fractions), derived by `getCurrentExposure`. -/
structure Exposure where
  total : ℚ
  byAsset : List (String × ℚ)
  bySector : List (String × ℚ)
deriving DecidableEq

/-- Result of `checkPortfolioExposure`: on rejection the `reason` names
the measured value and the cap; on success the snapshot is carried along. -/
structure ExpCheck where
  allowed : Bool
  reason : Option String
  currentExposure : Option Exposure
deriving DecidableEq

/-- Embeds `RiskManager.checkPortfolioExposure(symbol)`: rejects when the total,
per-asset or per-sector fractional exposure meets or exceeds its cap
(sector cap defaulting to 0.3), with a percentage-formatted reason. -/
def checkPortfolioExposure (rs : RiskSettings) (e : Exposure) (symbol : String) : ExpCheck :=
  if e.total ≥ rs.maxTotalExposure then
    { allowed := false
      reason := some ("Total portfolio exposure (" ++ pctStr e.total ++ "%) exceeds limit (" ++
        pctStr rs.maxTotalExposure ++ "%)")
      currentExposure := none }
  else
    let assetExposure := lookupQ e.byAsset symbol
    if assetExposure ≥ rs.maxPositionSize then
      { allowed := false
        reason := some ("Exposure to " ++ symbol ++ " (" ++ pctStr assetExposure ++
          "%) exceeds single asset limit (" ++ pctStr rs.maxPositionSize ++ "%)")
        currentExposure := none }
    else
      match getAssetSector symbol with
      | some sector =>
          let sectorExposure := lookupQ e.bySector sector
          let maxSectorExposure := jsOr rs.maxSectorExposure (3/10)
          if sectorExposure ≥ maxSectorExposure then
            { allowed := false
              reason := some ("Exposure to " ++ sector ++ " sector (" ++ pctStr sectorExposure ++
                "%) exceeds limit (" ++ pctStr maxSectorExposure ++ "%)")
              currentExposure := none }
          else { allowed := true, reason := none, currentExposure := some e }
      | none => { allowed := true, reason := none, currentExposure := some e }

/-- A sub-analysis carrying an overall confidence
(`analysis.analysis.technical.overall` or `...sentiment.overall`). -/
structure SubConf where
  confidence : ℚ
deriving DecidableEq

/-- The `analysis.analysis.machineLearning` block. -/
structure MlInfo where
  confidence : ℚ
  volatility : Option String
deriving DecidableEq

/-- The composite analysis object passed to `evaluateOpportunity`. -/
structure AnalysisInput where
  confidence : ℚ
  signal : String
  technical : Option SubConf
  sentiment : Option SubConf
  machineLearning : Option MlInfo
deriving DecidableEq

/-- Embeds `RiskManager.assessSignalQuality(analysis)`: weighted blend of the
composite confidence (0.4) and the technical / sentiment / ML
sub-confidences (0.3 / 0.2 / 0.1), capped at 1. -/
def assessSignalQuality (a : AnalysisInput) : ℚ :=
  let s0 : ℚ := a.confidence * (2/5)
  let s1 := s0 + (match a.technical with | some t => t.confidence * (3/10) | none => 0)
  let s2 := s1 + (match a.sentiment with | some t => t.confidence * (1/5) | none => 0)
  let s3 := s2 + (match a.machineLearning with | some m => m.confidence * (1/10) | none => 0)
  min s3 1

/-- Embeds `RiskManager.calculateKellyPosition`: `(b p - q) / b` with
`b = avgWin / avgLoss`, clamped to `[0, 0.05]`; zero when `avgLoss ≤ 0`. -/
def calculateKellyPosition (winRate avgWin avgLoss : ℚ) : ℚ :=
  if avgLoss ≤ 0 then 0
  else
    let b := avgWin / avgLoss
    let p := winRate
    let q := 1 - p
    let kellyFraction := (b * p - q) / b
    max 0 (min kellyFraction (1/20))

/-- One open position with its correlation to the candidate symbol
(exposure fraction and correlation from the collaborators). -/
structure PositionCorr where
  symbol : String
  exposure : ℚ
  correlation : ℚ
deriving DecidableEq

/-- Result of `checkCorrelationRisk`. -/
structure CorrRisk where
  level : String
  totalCorrelatedExposure : ℚ
deriving DecidableEq

/-- Embeds `RiskManager.checkCorrelationRisk(symbol)`: sums the exposures of
positions with `|correlation| > 0.7`; above 0.3 is HIGH, above 0.15
MEDIUM, else LOW. -/
def checkCorrelationRisk (positions : List PositionCorr) : CorrRisk :=
  let totalCorrelatedExposure :=
    (positions.filter (fun p => |p.correlation| > 7/10)).foldl (fun acc p => acc + p.exposure) 0
  { level :=
      if totalCorrelatedExposure > 3/10 then "HIGH"
      else if totalCorrelatedExposure > 3/20 then "MEDIUM"
      else "LOW"
    totalCorrelatedExposure := totalCorrelatedExposure }

/-- One enabled platform together with the collaborator answers used by
`assessPlatformRisk` (symbol support, health, platform-specific risk). -/
structure PlatformStatus where
  name : String
  supportsSymbol : Bool
  healthy : Bool
  riskLevel : String
deriving DecidableEq

/-- Embeds `RiskManager.assessPlatformRisk(symbol)`: keep the platforms that
support the symbol, pass the health check and are not HIGH risk. -/
def assessPlatformRisk (platforms : List PlatformStatus) : List String :=
  (platforms.filter (fun p => p.supportsSymbol && p.healthy && p.riskLevel ≠ "HIGH")).map
    (fun p => p.name)

/-- Embeds `RiskManager.calculateRiskLevel(analysis, exposureCheck, correlationRisk)`. -/
def calculateRiskLevel (a : AnalysisInput) (exposureCheck : ExpCheck) (correlationRisk : CorrRisk) :
    String :=
  let factors : List String :=
    (if a.confidence < 7/10 then ["LOW_CONFIDENCE"] else []) ++
    (match exposureCheck.currentExposure with
     | some e => if e.total > 4/5 then ["HIGH_EXPOSURE"] else []
     | none => []) ++
    (if correlationRisk.level = "HIGH" then ["HIGH_CORRELATION"] else []) ++
    (match a.machineLearning with
     | some m => if m.volatility = some "HIGH" then ["HIGH_VOLATILITY"] else []
     | none => [])
  if factors.contains "HIGH_EXPOSURE" || factors.contains "HIGH_CORRELATION" then "HIGH"
  else if factors.length ≥ 2 then "MEDIUM"
  else "LOW"

/-- Embeds `RiskManager.getTradeConditions(analysis, riskLevel)`. -/
def getTradeConditions (a : AnalysisInput) (riskLevel : String) : List String :=
  (if riskLevel = "HIGH" then
    ["Reduced position size due to high risk", "Tighter stop loss required"] else []) ++
  (if a.confidence < 4/5 then ["Limit order recommended due to lower confidence"] else []) ++
  (match a.machineLearning with
   | some m => if m.volatility = some "HIGH" then ["Extra caution due to high volatility"] else []
   | none => [])

/-- Embeds `RiskManager.isSymbolAllowed(symbol)`: blocked list wins, then a
non-empty white list must contain the symbol. -/
def isSymbolAllowed (cfg : TradingConfig) (symbol : String) : Bool :=
  if (match cfg.tradingSettings.blockedSymbols with
      | some bl => bl.contains symbol
      | none => false) then false
  else
    match cfg.tradingSettings.allowedSymbols with
    | some wl => if wl.length > 0 then wl.contains symbol else true
    | none => true

/-- All inputs to one `evaluateOpportunity` call: the candidate symbol,
the configuration, and the responses of every external collaborator the
source consults (market data, exposure snapshot, asset volatility,
portfolio value, Kelly statistics, open positions, platform checks). -/
structure RiskEnv where
  symbol : String
  config : TradingConfig
  conditions : MarketConditions
  exposure : Exposure
  analysis : AnalysisInput
  assetVolatility : ℚ
  rawPortfolioValue : ℚ
  winRate : ℚ
  avgWin : ℚ
  avgLoss : ℚ
  positions : List PositionCorr
  platforms : List PlatformStatus
deriving DecidableEq

/-- Embeds `RiskManager.calculatePositionSize(analysis, symbol)`: start from
`maxPositionSize`, scale by confidence (`0.2 + 0.8 c`), inverse
volatility (`max(0.3, 1 - v)`) and the market-condition multiplier
(1 / 0.7 / 0.5), optionally cap by Kelly, collapse to zero below the
minimum trade value, and cap by `maxTradeValue / portfolioValue`. -/
def calculatePositionSize (env : RiskEnv) : ℚ :=
  let portfolioValue := max env.rawPortfolioValue 1000
  let confidenceAdjustment := env.analysis.confidence * (4/5) + 1/5
  let b1 := env.config.riskSettings.maxPositionSize * confidenceAdjustment
  let volatilityAdjustment := max (3/10) (1 - env.assetVolatility)
  let b2 := b1 * volatilityAdjustment
  let marketLevel := (assessMarketConditions env.conditions).level
  let marketAdjustment : ℚ :=
    if marketLevel = RiskLvl.HIGH then 1/2
    else if marketLevel = RiskLvl.MEDIUM then 7/10 else 1
  let b3 := b2 * marketAdjustment
  let b4 :=
    if env.config.riskSettings.useKellyCriterion then
      min b3 (calculateKellyPosition env.winRate env.avgWin env.avgLoss)
    else b3
  let minTradeValue := jsOr env.config.riskSettings.minTradeValue 10
  let calculatedValue := b4 * portfolioValue
  if calculatedValue < minTradeValue then 0
  else
    let maxTradeValue := jsOr env.config.riskSettings.maxTradeValue (portfolioValue * (1/10))
    min b4 (maxTradeValue / portfolioValue)

/-- The `RiskAssessment` record returned by `evaluateOpportunity`. -/
structure RiskAssessment where
  approved : Bool
  recommendedSize : ℚ
  reason : String
  riskLevel : String
  approvedPlatforms : List String
  conditions : List String
deriving DecidableEq

/-- A rejected assessment with the given reason. -/
def rejectedAssessment (reason : String) : RiskAssessment :=
  { approved := false, recommendedSize := 0, reason := reason, riskLevel := "UNKNOWN"
    approvedPlatforms := [], conditions := [] }

/-- Embeds `RiskManager.evaluateOpportunity(analysis, symbol)`: the gate chain of
the source — symbol allowed, market conditions, portfolio exposure,
signal quality, position size, correlation, platforms — with the first
failing gate rejecting, and all gates passing approving with the computed
position size. -/
def evaluateOpportunity (env : RiskEnv) : RiskAssessment :=
  if !isSymbolAllowed env.config env.symbol then
    rejectedAssessment "Symbol not in allowed trading list"
  else
    let marketRisk := assessMarketConditions env.conditions
    if marketRisk.level = RiskLvl.EXTREME then
      rejectedAssessment "Extreme market conditions detected"
    else
      let exposureCheck := checkPortfolioExposure env.config.riskSettings env.exposure env.symbol
      if !exposureCheck.allowed then
        rejectedAssessment (match exposureCheck.reason with | some r => r | none => "")
      else
        let signalQuality := assessSignalQuality env.analysis
        if signalQuality < 3/5 then
          rejectedAssessment "Signal quality too low for trading"
        else
          let positionSize := calculatePositionSize env
          if positionSize ≤ 0 then
            rejectedAssessment "Calculated position size too small to trade"
          else
            let correlationRisk := checkCorrelationRisk env.positions
            if correlationRisk.level = "HIGH" then
              rejectedAssessment "High correlation with existing positions"
            else
              let approvedPlatforms := assessPlatformRisk env.platforms
              if approvedPlatforms.length = 0 then
                rejectedAssessment "No approved platforms for this trade"
              else
                let riskLevel := calculateRiskLevel env.analysis exposureCheck correlationRisk
                { approved := true
                  recommendedSize := positionSize
                  reason := ""
                  riskLevel := riskLevel
                  approvedPlatforms := approvedPlatforms
                  conditions := getTradeConditions env.analysis riskLevel }

/-- Spec-side reading of "escalates the level by exactly one step". -/
def specEscalateOne : RiskLvl → RiskLvl
  | RiskLvl.LOW => RiskLvl.MEDIUM
  | RiskLvl.MEDIUM => RiskLvl.HIGH
  | RiskLvl.HIGH => RiskLvl.EXTREME
  | RiskLvl.EXTREME => RiskLvl.EXTREME

/-- Calm market conditions: low volatility, no events, market hours,
good liquidity. -/
def mcCalm : MarketConditions :=
  { volatility := 1/5, majorEvents := [], isMarketHours := true, liquidityScore := 4/5 }

/-- Calm market conditions except for a low liquidity score (0.4). -/
def mcLowLiq : MarketConditions :=
  { volatility := 1/5, majorEvents := [], isMarketHours := true, liquidityScore := 2/5 }

/-- Conditions with elevated volatility (0.3). -/
def mcMediumVol : MarketConditions :=
  { volatility := 3/10, majorEvents := [], isMarketHours := true, liquidityScore := 4/5 }

/-- Conditions with high volatility (0.5). -/
def mcHighVol : MarketConditions :=
  { volatility := 1/2, majorEvents := [], isMarketHours := true, liquidityScore := 4/5 }

/-- Conditions with a scheduled macro event. -/
def mcEvents : MarketConditions :=
  { volatility := 1/5, majorEvents := ["CPI release"], isMarketHours := true
    liquidityScore := 4/5 }

/-- Risk settings of exposure Scenario C: total cap 0.8. -/
def rsScenC : RiskSettings :=
  { maxPositionSize := 1/20, maxDailyLoss := 1/50, maxTotalExposure := 4/5
    stopLossPercentage := 1/20, maxSectorExposure := none, useKellyCriterion := false
    minTradeValue := none, maxTradeValue := none }

/-- Exposure snapshot of Scenario C: current total exposure 0.85. -/
def expScenC : Exposure := { total := 17/20, byAsset := [], bySector := [] }

/-- Technical verdict input for the C1 counterexample: HOLD with
confidence 0.6 (and, as always, no strength field). -/
def cxTechC1 : TechResult := ⟨"HOLD", JsNum.num (3/5), ⟨0, 0, 1⟩⟩

/-- Sentiment input for the C1 counterexample: a BUY signal of strength
0.7 whose source confidence is 0.5. -/
def cxSentC1 : SentOverall := ⟨7/10, 1/2, ⟨"BUY", 7/10⟩⟩

/-- Prediction input for the C1 counterexample: a HOLD of strength 0. -/
def cxMlC1 : MlResult := ⟨⟨"HOLD", 0⟩, some "MEDIUM", 0⟩

/-- Scenario D technical verdict: BUY with confidence 0.9 (the claimed
strength 0.8 has no home, since the record carries no strength field). -/
def sdTech : TechResult := ⟨"BUY", JsNum.num (9/10), ⟨4/5, 0, 0⟩⟩

/-- Scenario D sentiment verdict: HOLD. -/
def sdSent : SentOverall := ⟨0, 1/2, ⟨"HOLD", 1/5⟩⟩

/-- Technical verdict input for the C3 failing input: HOLD, confidence 0.5. -/
def cxTechHold : TechResult := ⟨"HOLD", JsNum.num (1/2), ⟨0, 0, 1⟩⟩

/-- Sentiment input for the C3 failing input: HOLD of strength 0.2. -/
def cxSentHold : SentOverall := ⟨0, 1/2, ⟨"HOLD", 1/5⟩⟩

/-- Prediction input for the C3 failing input: HOLD of strength 0.1. -/
def cxMlHold : MlResult := ⟨⟨"HOLD", 1/10⟩, some "MEDIUM", 2/5⟩

/-- Technical verdict input for the C4 counterexample: BUY, so that the
HOLD bucket is free of the missing-strength NaN. -/
def cxTechC4 : TechResult := ⟨"BUY", JsNum.num (3/5), ⟨1, 0, 0⟩⟩

/-- Sentiment input for the C4 counterexample: HOLD of strength 0.4. -/
def cxSentC4 : SentOverall := ⟨0, 3/5, ⟨"HOLD", 2/5⟩⟩

/-- A complete, healthy environment for one `evaluateOpportunity` call:
valid configuration, calm market, small exposure, good signal quality,
one healthy platform. -/
def envW : RiskEnv :=
  { symbol := "BTC"
    config :=
      { riskSettings :=
          { maxPositionSize := 1/20, maxDailyLoss := 1/50, maxTotalExposure := 4/5
            stopLossPercentage := 1/20, maxSectorExposure := none
            useKellyCriterion := false, minTradeValue := none, maxTradeValue := none }
        tradingSettings := { allowedSymbols := none, blockedSymbols := none } }
    conditions := mcCalm
    exposure := { total := 1/10, byAsset := [], bySector := [] }
    analysis :=
      { confidence := 4/5, signal := "BUY", technical := some ⟨7/10⟩
        sentiment := some ⟨3/5⟩, machineLearning := some ⟨3/5, some "MEDIUM"⟩ }
    assetVolatility := 3/10
    rawPortfolioValue := 10000
    winRate := 11/20
    avgWin := 3/100
    avgLoss := 1/50
    positions := []
    platforms := [⟨"binance", true, true, "LOW"⟩] }

theorem jadd_nan_left (x : JsNum) : jadd JsNum.nan x = JsNum.nan := by
  cases x <;> rfl

theorem jadd_nan_right (x : JsNum) : jadd x JsNum.nan = JsNum.nan := by
  cases x <;> rfl

theorem jadd_num_zero (x : JsNum) : jadd x (JsNum.num 0) = x := by
  cases x <;> simp [jadd]

theorem jlt_nan_left (x : JsNum) : jlt JsNum.nan x = false := by
  cases x <;> rfl

theorem jlt_nan_right (x : JsNum) : jlt x JsNum.nan = false := by
  cases x <;> rfl

theorem jmax_nan_left (x : JsNum) : jmax JsNum.nan x = JsNum.nan := by
  cases x <;> rfl

/-- Folding further bucket contributions onto a NaN accumulator keeps NaN. -/
theorem foldl_jadd_nan (L : List WSignal) :
    L.foldl (fun acc s => jadd acc (jmul (jofOpt s.strength) (JsNum.num s.weight)))
      JsNum.nan = JsNum.nan := by
  induction L with
  | nil => rfl
  | cons h t ih => simpa [jadd_nan_left] using ih

/-- C6: the claim is right and the code is wrong.  On a flat price series
(15 equal prices, period 14) the average gain and the average loss are
both zero, `rs = 0/0` is NaN, and `calculateRSI` emits NaN instead of the
specified 100 — the value is neither 100 nor inside [0, 100]. -/
theorem calculateRSI_flat_series_nan :
    calculateRSI (List.replicate 15 (1:ℚ)) 14 = [JsNum.nan] := by
  norm_num [calculateRSI, rsiValue, rsiLoop, jdiv, jadd, jsub, jneg,
    List.replicate, List.zipWith]

/-- C8: indicator outputs are aligned to a suffix of the input.
`calculateSMA` yields `len - period + 1` values when the series is long
enough and the empty list otherwise, and `calculateRSI` yields the empty
list whenever fewer than `period + 1` prices are supplied — in particular
for a series of length 5 with period 14. -/
theorem indicator_alignment (prices : List ℚ) (period : ℕ) :
    (period ≤ prices.length →
      (calculateSMA prices period).length = prices.length - period + 1) ∧
    (prices.length < period → calculateSMA prices period = []) ∧
    (prices.length < period + 1 → calculateRSI prices period = []) ∧
    calculateRSI [(100:ℚ), 101, 102, 103, 104] 14 = [] := by
  refine ⟨?_, ?_, ?_, ?_⟩
  · intro h
    simp [calculateSMA, Nat.not_lt.mpr h]
  · intro h
    simp [calculateSMA, h]
  · intro h
    simp [calculateRSI, h]
  · norm_num [calculateRSI]

/-- Witness for C8 at concrete inputs. -/
theorem indicator_alignment_witness :
    (calculateSMA [(1:ℚ), 2, 3] 2).length = 3 - 2 + 1 ∧
    calculateSMA [(1:ℚ), 2] 5 = [] ∧
    calculateRSI [(1:ℚ), 2] 5 = [] :=
  ⟨(indicator_alignment [1, 2, 3] 2).1 (by norm_num),
   (indicator_alignment [1, 2] 5).2.1 (by norm_num),
   (indicator_alignment [1, 2] 5).2.2.1 (by norm_num)⟩

/-- Any level at least MEDIUM stays at least MEDIUM through the events,
hours and liquidity steps. -/
theorem steps_keep_medium (l : RiskLvl) (ev : List String) (hrs : Bool) (liq : ℚ)
    (h : riskRank RiskLvl.MEDIUM ≤ riskRank l) :
    riskRank RiskLvl.MEDIUM ≤
      riskRank (liquidityStep (hoursStep (eventsStep l ev) hrs) liq) := by
  cases l <;>
    simp only [eventsStep, hoursStep, liquidityStep, riskRank] at h ⊢ <;>
    split_ifs <;> simp_all [riskRank]

/-- Any level at least HIGH, produced below the EXTREME level, stays at
least HIGH through the events, hours and liquidity steps. -/
theorem steps_keep_high (l : RiskLvl) (ev : List String) (hrs : Bool) (liq : ℚ)
    (h : riskRank RiskLvl.HIGH ≤ riskRank l) :
    riskRank RiskLvl.HIGH ≤
      riskRank (liquidityStep (hoursStep (eventsStep l ev) hrs) liq) := by
  cases l <;>
    simp only [eventsStep, hoursStep, liquidityStep, riskRank] at h ⊢ <;>
    split_ifs <;> simp_all [riskRank]

/-- After a scheduled event the level is HIGH or EXTREME, and the hours
and liquidity steps keep it at least HIGH. -/
theorem steps_events_high (l : RiskLvl) (ev : List String) (hrs : Bool) (liq : ℚ)
    (hev : ev ≠ []) :
    riskRank RiskLvl.HIGH ≤
      riskRank (liquidityStep (hoursStep (eventsStep l ev) hrs) liq) := by
  have hlen : ev.length > 0 := List.length_pos.mpr hev
  cases l <;>
    simp only [eventsStep, hoursStep, liquidityStep, riskRank, hlen, if_true] <;>
    split_ifs <;> simp_all [riskRank]

/-- C5 counterexample: with calm conditions except a low liquidity score,
the code jumps from LOW straight to HIGH, not by one step to MEDIUM. -/
theorem market_liquidity_not_one_step :
    marketRiskLevel mcCalm = RiskLvl.LOW ∧
    specEscalateOne (marketRiskLevel mcCalm) = RiskLvl.MEDIUM ∧
    marketRiskLevel mcLowLiq = RiskLvl.HIGH := by
  refine ⟨?_, ?_, ?_⟩
  · norm_num [marketRiskLevel, mcCalm, volatilityLevel, eventsStep, hoursStep,
      liquidityStep]
  · norm_num [marketRiskLevel, mcCalm, volatilityLevel, eventsStep, hoursStep,
      liquidityStep, specEscalateOne]
  · norm_num [marketRiskLevel, mcLowLiq, volatilityLevel, eventsStep, hoursStep,
      liquidityStep]
    decide

/-- C5 amended: the level starts at LOW; volatility above 0.25 gives at
least MEDIUM and above 0.4 at least HIGH; a scheduled macro event forces
at least HIGH; but a low liquidity score (below 0.5) sets the level to
HIGH — or to EXTREME when it was already exactly HIGH — rather than
escalating by exactly one step. -/
theorem market_risk_escalation (c : MarketConditions) :
    (c.volatility ≤ 1/4 ∧ c.majorEvents = [] ∧ c.isMarketHours = true ∧
      1/2 ≤ c.liquidityScore → marketRiskLevel c = RiskLvl.LOW) ∧
    (c.volatility > 1/4 → riskRank RiskLvl.MEDIUM ≤ riskRank (marketRiskLevel c)) ∧
    (c.volatility > 2/5 → riskRank RiskLvl.HIGH ≤ riskRank (marketRiskLevel c)) ∧
    (c.majorEvents ≠ [] → riskRank RiskLvl.HIGH ≤ riskRank (marketRiskLevel c)) ∧
    (c.liquidityScore < 1/2 →
      marketRiskLevel c =
        (if hoursStep (eventsStep (volatilityLevel c.volatility) c.majorEvents)
            c.isMarketHours = RiskLvl.HIGH
         then RiskLvl.EXTREME else RiskLvl.HIGH)) := by
  refine ⟨?_, ?_, ?_, ?_, ?_⟩
  · rintro ⟨h1, h2, h3, h4⟩
    have hv : volatilityLevel c.volatility = RiskLvl.LOW := by
      unfold volatilityLevel
      rw [if_neg (by linarith), if_neg (by linarith)]
    have he : eventsStep RiskLvl.LOW c.majorEvents = RiskLvl.LOW := by
      unfold eventsStep
      rw [h2]
      simp
    have hh : hoursStep RiskLvl.LOW c.isMarketHours = RiskLvl.LOW := by
      unfold hoursStep
      rw [h3]
      simp
    unfold marketRiskLevel
    rw [hv, he, hh]
    unfold liquidityStep
    rw [if_neg (by linarith)]
  · intro h
    have : riskRank RiskLvl.MEDIUM ≤ riskRank (volatilityLevel c.volatility) := by
      simp only [volatilityLevel]
      split_ifs <;> simp_all [riskRank]
    exact steps_keep_medium _ _ _ _ this
  · intro h
    have : riskRank RiskLvl.HIGH ≤ riskRank (volatilityLevel c.volatility) := by
      simp only [volatilityLevel]
      split_ifs <;> simp_all [riskRank]
    exact steps_keep_high _ _ _ _ this
  · intro h
    exact steps_events_high _ _ _ _ h
  · intro h
    unfold marketRiskLevel liquidityStep
    rw [if_pos h]

/-- Witness for C5, instantiating every hypothesis of the amended claim
at concrete conditions. -/
theorem market_risk_escalation_witness :
    marketRiskLevel mcCalm = RiskLvl.LOW ∧
    riskRank RiskLvl.MEDIUM ≤ riskRank (marketRiskLevel mcMediumVol) ∧
    riskRank RiskLvl.HIGH ≤ riskRank (marketRiskLevel mcHighVol) ∧
    riskRank RiskLvl.HIGH ≤ riskRank (marketRiskLevel mcEvents) ∧
    marketRiskLevel mcLowLiq =
      (if hoursStep (eventsStep (volatilityLevel mcLowLiq.volatility)
          mcLowLiq.majorEvents) mcLowLiq.isMarketHours = RiskLvl.HIGH
       then RiskLvl.EXTREME else RiskLvl.HIGH) :=
  ⟨(market_risk_escalation mcCalm).1 (by norm_num [mcCalm]),
   (market_risk_escalation mcMediumVol).2.1 (by norm_num [mcMediumVol]),
   (market_risk_escalation mcHighVol).2.2.1 (by norm_num [mcHighVol]),
   (market_risk_escalation mcEvents).2.2.2.1 (by simp [mcEvents]),
   (market_risk_escalation mcLowLiq).2.2.2.2 (by norm_num [mcLowLiq])⟩

/-- C7: the exposure gate rejects exactly when the total, per-asset or
per-sector fractional exposure meets or exceeds its cap, with a reason
naming the measured value and the cap as percentages; in Scenario C
(total cap 0.8, current total 0.85) it rejects citing 85.0% vs 80.0%. -/
theorem exposure_gate (rs : RiskSettings) (e : Exposure) (symbol : String) :
    ((checkPortfolioExposure rs e symbol).allowed = false ↔
      (e.total ≥ rs.maxTotalExposure ∨
        lookupQ e.byAsset symbol ≥ rs.maxPositionSize ∨
        (∃ sector, getAssetSector symbol = some sector ∧
          lookupQ e.bySector sector ≥ jsOr rs.maxSectorExposure (3/10)))) ∧
    (e.total ≥ rs.maxTotalExposure →
      (checkPortfolioExposure rs e symbol).reason =
        some ("Total portfolio exposure (" ++ pctStr e.total ++ "%) exceeds limit (" ++
          pctStr rs.maxTotalExposure ++ "%)")) ∧
    (¬ e.total ≥ rs.maxTotalExposure → lookupQ e.byAsset symbol ≥ rs.maxPositionSize →
      (checkPortfolioExposure rs e symbol).reason =
        some ("Exposure to " ++ symbol ++ " (" ++ pctStr (lookupQ e.byAsset symbol) ++
          "%) exceeds single asset limit (" ++ pctStr rs.maxPositionSize ++ "%)")) ∧
    (∀ sector, ¬ e.total ≥ rs.maxTotalExposure →
      ¬ lookupQ e.byAsset symbol ≥ rs.maxPositionSize →
      getAssetSector symbol = some sector →
      lookupQ e.bySector sector ≥ jsOr rs.maxSectorExposure (3/10) →
      (checkPortfolioExposure rs e symbol).reason =
        some ("Exposure to " ++ sector ++ " sector (" ++ pctStr (lookupQ e.bySector sector) ++
          "%) exceeds limit (" ++ pctStr (jsOr rs.maxSectorExposure (3/10)) ++ "%)")) ∧
    ((checkPortfolioExposure rsScenC expScenC "BTC").allowed = false ∧
      (checkPortfolioExposure rsScenC expScenC "BTC").reason =
        some "Total portfolio exposure (85.0%) exceeds limit (80.0%)") := by
  refine ⟨?_, ?_, ?_, ?_, ?_, ?_⟩
  · unfold checkPortfolioExposure
    by_cases h1 : e.total ≥ rs.maxTotalExposure
    · simp [h1]
    · by_cases h2 : lookupQ e.byAsset symbol ≥ rs.maxPositionSize
      · simp [h1, h2]
      · cases hs : getAssetSector symbol with
        | none => simp [h1, h2, hs]
        | some sector =>
            by_cases h3 : lookupQ e.bySector sector ≥ jsOr rs.maxSectorExposure (3/10)
            · simp [h1, h2, hs, h3]
            · simp [h1, h2, hs, h3]
  · intro h
    unfold checkPortfolioExposure
    rw [if_pos h]
  · intro h1 h2
    unfold checkPortfolioExposure
    rw [if_neg h1, if_pos h2]
  · intro sector h1 h2 hs h3
    unfold checkPortfolioExposure
    rw [if_neg h1, if_neg h2, hs]
    simp only [if_pos h3]
  · have h : expScenC.total ≥ rsScenC.maxTotalExposure := by norm_num [expScenC, rsScenC]
    unfold checkPortfolioExposure
    rw [if_pos h]
  · have h : expScenC.total ≥ rsScenC.maxTotalExposure := by norm_num [expScenC, rsScenC]
    unfold checkPortfolioExposure
    rw [if_pos h]
    have h85 : pctStr expScenC.total = "85.0" := by
      unfold expScenC pctStr toFixed1
      norm_num [Int.floor_eq_iff]
      rfl
    have h80 : pctStr rsScenC.maxTotalExposure = "80.0" := by
      unfold rsScenC pctStr toFixed1
      norm_num [Int.floor_eq_iff]
      rfl
    rw [h85, h80]
    rfl

/-- Witness for C7: the Scenario C instance, via the general theorem. -/
theorem exposure_gate_witness :
    (checkPortfolioExposure rsScenC expScenC "BTC").reason =
      some ("Total portfolio exposure (" ++ pctStr expScenC.total ++ "%) exceeds limit (" ++
        pctStr rsScenC.maxTotalExposure ++ "%)") :=
  (exposure_gate rsScenC expScenC "BTC").2.1 (by norm_num [expScenC, rsScenC])

/-- C9: the technical aggregation partitions signals into buckets, sums
strengths, declares the strictly largest bucket the winner with
confidence = winning sum over total sum, and yields HOLD whenever no
bucket strictly exceeds both others. -/
theorem technical_aggregation (signals : List SigStr) :
    ((evaluateTechnicalSignals signals).signal = "BUY" ↔
      strengthSum (techBuySignals signals) > strengthSum (techSellSignals signals) ∧
      strengthSum (techBuySignals signals) > strengthSum (techHoldSignals signals)) ∧
    ((evaluateTechnicalSignals signals).signal = "SELL" ↔
      strengthSum (techSellSignals signals) > strengthSum (techBuySignals signals) ∧
      strengthSum (techSellSignals signals) > strengthSum (techHoldSignals signals)) ∧
    (¬ (strengthSum (techBuySignals signals) > strengthSum (techSellSignals signals) ∧
        strengthSum (techBuySignals signals) > strengthSum (techHoldSignals signals)) →
     ¬ (strengthSum (techSellSignals signals) > strengthSum (techBuySignals signals) ∧
        strengthSum (techSellSignals signals) > strengthSum (techHoldSignals signals)) →
      (evaluateTechnicalSignals signals).signal = "HOLD") ∧
    ((evaluateTechnicalSignals signals).signal = "BUY" →
      (evaluateTechnicalSignals signals).confidence =
        jdiv (JsNum.num (strengthSum (techBuySignals signals)))
          (JsNum.num (strengthSum (techBuySignals signals) +
            strengthSum (techSellSignals signals) + strengthSum (techHoldSignals signals)))) ∧
    ((evaluateTechnicalSignals signals).signal = "SELL" →
      (evaluateTechnicalSignals signals).confidence =
        jdiv (JsNum.num (strengthSum (techSellSignals signals)))
          (JsNum.num (strengthSum (techBuySignals signals) +
            strengthSum (techSellSignals signals) + strengthSum (techHoldSignals signals)))) ∧
    ((evaluateTechnicalSignals signals).signal = "HOLD" →
      (evaluateTechnicalSignals signals).confidence =
        jdiv (JsNum.num (strengthSum (techHoldSignals signals)))
          (JsNum.num (strengthSum (techBuySignals signals) +
            strengthSum (techSellSignals signals) + strengthSum (techHoldSignals signals)))) ∧
    (evaluateTechnicalSignals signals).scores =
      ⟨strengthSum (techBuySignals signals), strengthSum (techSellSignals signals),
        strengthSum (techHoldSignals signals)⟩ := by
  refine ⟨?_, ?_, ?_, ?_, ?_, ?_, ?_⟩
  · simp only [evaluateTechnicalSignals]
    split_ifs with h1 h2
    · simp [h1]
    · exact ⟨fun hcon => absurd hcon (by simp), fun hr => absurd hr.1 (lt_asymm h2.1)⟩
    · exact ⟨fun hcon => absurd hcon (by simp), fun hr => absurd hr h1⟩
  · simp only [evaluateTechnicalSignals]
    split_ifs with h1 h2
    · exact ⟨fun hcon => absurd hcon (by simp), fun hr => absurd hr.1 (lt_asymm h1.1)⟩
    · simp [h2]
    · exact ⟨fun hcon => absurd hcon (by simp), fun hr => absurd hr h2⟩
  · intro hnb hns
    simp only [evaluateTechnicalSignals]
    rw [if_neg hnb, if_neg hns]
  · simp only [evaluateTechnicalSignals]
    split_ifs with h1 h2 <;> intro h <;> first | rfl | exact absurd h (by simp)
  · simp only [evaluateTechnicalSignals]
    split_ifs with h1 h2 <;> intro h <;> first | rfl | exact absurd h (by simp)
  · simp only [evaluateTechnicalSignals]
    split_ifs with h1 h2 <;> intro h <;> first | rfl | exact absurd h (by simp)
  · simp only [evaluateTechnicalSignals]
    split_ifs <;> rfl

/-- Witness for C9: a single HOLD signal gives a HOLD verdict. -/
theorem technical_aggregation_witness :
    (evaluateTechnicalSignals [⟨"HOLD", (1:ℚ)⟩]).signal = "HOLD" := by
  have hB : techBuySignals [⟨"HOLD", (1:ℚ)⟩] = [] := by decide
  have hS : techSellSignals [⟨"HOLD", (1:ℚ)⟩] = [] := by decide
  refine (technical_aggregation [⟨"HOLD", 1⟩]).2.2.1 ?_ ?_
  · rw [hB, hS]
    rintro ⟨h, -⟩
    simp [strengthSum] at h
  · rw [hB, hS]
    rintro ⟨h, -⟩
    simp [strengthSum] at h

/-- C10: bucket membership is decided by label substring — a label
containing BUY (including WEAK_BUY) goes to the BUY bucket, one
containing SELL (including WEAK_SELL) to the SELL bucket, and every
other label to the HOLD bucket; in particular every volume-signal label
(STRONG_SIGNAL, CONFIRMATION, WEAK_SIGNAL, NEUTRAL) lands in HOLD. -/
theorem bucket_membership (sigs : List SigStr) (sig : SigStr) (va : VolumeAnalysis) :
    (sig ∈ sigs → strIncludes sig.signal "BUY" = true → sig ∈ techBuySignals sigs) ∧
    (sig ∈ sigs → sig.signal ∈ realLabels → strIncludes sig.signal "SELL" = true →
      sig ∈ techSellSignals sigs) ∧
    (sig ∈ sigs → strIncludes sig.signal "BUY" = false →
      strIncludes sig.signal "SELL" = false → sig ∈ techHoldSignals sigs) ∧
    ((getVolumeSignal va).signal ∈
        (["STRONG_SIGNAL", "CONFIRMATION", "WEAK_SIGNAL", "NEUTRAL"] : List String) ∧
      strIncludes (getVolumeSignal va).signal "BUY" = false ∧
      strIncludes (getVolumeSignal va).signal "SELL" = false) ∧
    (strIncludes "WEAK_BUY" "BUY" = true ∧ strIncludes "WEAK_SELL" "SELL" = true ∧
      ∀ l ∈ (["HOLD", "NEUTRAL", "NONE", "STRONG_SIGNAL", "CONFIRMATION"] : List String),
        strIncludes l "BUY" = false ∧ strIncludes l "SELL" = false) := by
  have key : ∀ t : String, t ∈ realLabels → strIncludes t "SELL" = true →
      (!strIncludes t "BUY" && strIncludes t "SELL") = true := by decide
  refine ⟨?_, ?_, ?_, ?_, ?_⟩
  · intro hm hb
    exact List.mem_filter.mpr ⟨hm, hb⟩
  · intro hm hlab hs
    exact List.mem_filter.mpr ⟨hm, key _ hlab hs⟩
  · intro hm hb hs
    refine List.mem_filter.mpr ⟨hm, ?_⟩
    simp [hb, hs]
  · unfold getVolumeSignal
    split_ifs <;> decide
  · decide

/-- Witness for C10: a WEAK_BUY signal is counted in the BUY bucket. -/
theorem bucket_membership_witness :
    (⟨"WEAK_BUY", (2:ℚ)/5⟩ : SigStr) ∈ techBuySignals [⟨"WEAK_BUY", (2:ℚ)/5⟩] :=
  (bucket_membership [⟨"WEAK_BUY", 2/5⟩] ⟨"WEAK_BUY", 2/5⟩ ⟨"INCREASING", "HIGH", true⟩).1
    (by simp) (by decide)

theorem hold_ne_buy : ("HOLD" : String) = "BUY" ↔ False := by simp only [iff_false]; decide

theorem hold_ne_sell : ("HOLD" : String) = "SELL" ↔ False := by simp only [iff_false]; decide

theorem buy_ne_sell : ("BUY" : String) = "SELL" ↔ False := by simp only [iff_false]; decide

theorem sell_ne_buy : ("SELL" : String) = "BUY" ↔ False := by simp only [iff_false]; decide

theorem buy_ne_hold : ("BUY" : String) = "HOLD" ↔ False := by simp only [iff_false]; decide

theorem sell_ne_hold : ("SELL" : String) = "HOLD" ↔ False := by simp only [iff_false]; decide

theorem jmul_nan_left (x : JsNum) : jmul JsNum.nan x = JsNum.nan := by
  cases x <;> rfl

/-- A bucket whose filter keeps a head entry with a missing strength
evaluates to NaN, whatever follows. -/
theorem bucketScore_head_none (lbl : String) (t : WSignal) (rest : List WSignal)
    (ht : t.signal = lbl) (hs : t.strength = none) :
    bucketScore lbl (t :: rest) = JsNum.nan := by
  unfold bucketScore
  rw [List.filter_cons_of_pos (by simp [ht])]
  rw [List.foldl_cons, hs]
  simp only [jofOpt, jmul_nan_left, jadd_nan_right]
  exact foldl_jadd_nan _

/-- The composite decision is always HOLD: the technical entry carries no
strength, so the bucket of the technical verdict is NaN and no strict
comparison in favour of BUY or SELL can succeed. -/
theorem combineSignals_always_hold (t : TechResult) (s : SentOverall) (m : MlResult)
    (h : t.signal = "BUY" ∨ t.signal = "SELL" ∨ t.signal = "HOLD") :
    (combineSignals t s m).signal = "HOLD" := by
  rcases h with h | h | h
  · have hbuy : bucketScore "BUY" (combineEntries t s m) = JsNum.nan := by
      unfold combineEntries
      exact bucketScore_head_none _ _ _ (by simp [h]) rfl
    simp only [combineSignals]
    rw [hbuy]
    simp [jgt, jlt_nan_left, jlt_nan_right]
  · have hsell : bucketScore "SELL" (combineEntries t s m) = JsNum.nan := by
      unfold combineEntries
      exact bucketScore_head_none _ _ _ (by simp [h]) rfl
    simp only [combineSignals]
    rw [hsell]
    simp [jgt, jlt_nan_left, jlt_nan_right]
  · have hhold : bucketScore "HOLD" (combineEntries t s m) = JsNum.nan := by
      unfold combineEntries
      exact bucketScore_head_none _ _ _ (by simp [h]) rfl
    simp only [combineSignals]
    rw [hhold]
    simp [jgt, jadd_nan_left, jlt_nan_left, jlt_nan_right]

/-- C1 counterexample: at a sentiment BUY of strength 0.7 with source
confidence 0.5, the combiner's BUY score is 0.7 * 0.3 = 0.21, not the
claimed strength * weight * confidence = 0.7 * 0.3 * 0.5 = 0.105. -/
theorem combine_no_confidence_factor :
    (combineSignals cxTechC1 cxSentC1 cxMlC1).reasoning.buy = JsNum.num (21/100) ∧
    JsNum.num (21/100) ≠
      JsNum.num (cxSentC1.signal.strength * (3/10) * cxSentC1.confidence) := by
  constructor
  · norm_num [combineSignals, combineEntries, bucketScore, cxTechC1, cxSentC1,
      cxMlC1, jofOpt, jmul, jadd, List.filter_cons, List.filter_nil, hold_ne_buy, hold_ne_sell, buy_ne_sell, sell_ne_buy, buy_ne_hold, sell_ne_hold]
  · norm_num [cxSentC1]

/-- C1 amended: the combiner weighs technical 0.5, sentiment 0.3 and
prediction 0.2, multiplying each source's strength by its weight only
(never by the source's confidence); the technical verdict carries no
strength, so its bucket is NaN and the decision is always HOLD; in
Scenario D (technical BUY at confidence 0.9, sentiment HOLD, prediction
unavailable) the composite decision is HOLD. -/
theorem combine_weight_only (technical : TechResult) (sentiment : SentOverall)
    (ml : MlResult) (signals : List SigStr) :
    ((evaluateTechnicalSignals signals).signal = "BUY" ∨
      (evaluateTechnicalSignals signals).signal = "SELL" ∨
      (evaluateTechnicalSignals signals).signal = "HOLD") ∧
    (technical.signal = "BUY" ∨ technical.signal = "SELL" ∨ technical.signal = "HOLD" →
      (combineSignals technical sentiment ml).signal = "HOLD") ∧
    (technical.signal ≠ "BUY" →
      (combineSignals technical sentiment ml).reasoning.buy =
        JsNum.num
          ((if sentiment.signal.signal = "BUY" then sentiment.signal.strength * (3/10) else 0) +
            (if ml.signal.signal = "BUY" then ml.signal.strength * (1/5) else 0))) ∧
    (combineSignals sdTech sdSent mlFailed).signal = "HOLD" := by
  refine ⟨?_, ?_, ?_, ?_⟩
  · simp only [evaluateTechnicalSignals]
    split_ifs <;> simp
  · exact combineSignals_always_hold technical sentiment ml
  · intro h
    simp only [combineSignals, combineEntries, bucketScore]
    rw [List.filter_cons_of_neg (by simp [h])]
    by_cases hs : sentiment.signal.signal = "BUY" <;>
      by_cases hm : ml.signal.signal = "BUY" <;>
        simp [hs, hm, jofOpt, jmul, jadd, List.filter_cons, List.filter_nil, hold_ne_buy, hold_ne_sell, buy_ne_sell, sell_ne_buy, buy_ne_hold, sell_ne_hold]
  · exact combineSignals_always_hold sdTech sdSent mlFailed (Or.inl rfl)

/-- Witness for C1, discharging both conditional conjuncts at concrete
inputs via the theorem. -/
theorem combine_weight_only_witness :
    (combineSignals cxTechC4 cxSentC4 mlFailed).signal = "HOLD" ∧
    (combineSignals cxTechHold cxSentC1 cxMlC1).reasoning.buy =
      JsNum.num
        ((if cxSentC1.signal.signal = "BUY" then cxSentC1.signal.strength * (3/10) else 0) +
          (if cxMlC1.signal.signal = "BUY" then cxMlC1.signal.strength * (1/5) else 0)) :=
  ⟨(combine_weight_only cxTechC4 cxSentC4 mlFailed []).2.1 (Or.inl rfl),
   (combine_weight_only cxTechHold cxSentC1 cxMlC1 []).2.2.1 (by decide)⟩

/-- C3: the claim is right and the code is wrong.  On a technical HOLD
verdict the HOLD bucket receives `undefined * 0.5 = NaN` (the technical
record has no strength field), `Math.max(NaN, 0.3)` is NaN, and the
returned confidence is NaN — outside [0.1, 0.95]. -/
theorem combine_confidence_nan :
    (combineSignals cxTechHold cxSentHold cxMlHold).confidence = JsNum.nan := by
  norm_num [combineSignals, combineEntries, bucketScore, cxTechHold, cxSentHold,
    cxMlHold, jofOpt, jmul, jadd, jgt, jlt, jmax, List.filter_cons, List.filter_nil,
    hold_ne_buy, hold_ne_sell]

/-- C4 counterexample: with the prediction source failed (weight 0.2
unavailable) and a sentiment HOLD of strength 0.4, the HOLD score is
0.4 * 0.3 = 0.12 — not increased by 0.2 * 0.5 = 0.1 as claimed. -/
theorem combine_no_neutral_weight :
    (combineSignals cxTechC4 cxSentC4 mlFailed).reasoning.hold = JsNum.num (3/25) ∧
    (3/25 : ℚ) ≠ 3/25 + (1/5) * (1/2) := by
  constructor
  · norm_num [combineSignals, combineEntries, bucketScore, cxTechC4, cxSentC4,
      mlFailed, jofOpt, jmul, jadd, List.filter_cons, List.filter_nil, hold_ne_buy, hold_ne_sell, buy_ne_sell, sell_ne_buy, buy_ne_hold, sell_ne_hold]
  · norm_num

/-- C4 amended: a failed prediction source is replaced by a HOLD of
strength 0 that still carries its weight, so it contributes zero to every
bucket and the unused-weight-to-HOLD adjustment (weights always sum to 1)
adds zero: each reported score equals the bucket score of the technical
and sentiment entries alone. -/
theorem combine_failed_source_zero (t : TechResult) (s : SentOverall) :
    (combineSignals t s mlFailed).reasoning.buy =
      bucketScore "BUY"
        [⟨t.signal, none, 1/2⟩, ⟨s.signal.signal, some s.signal.strength, 3/10⟩] ∧
    (combineSignals t s mlFailed).reasoning.sell =
      bucketScore "SELL"
        [⟨t.signal, none, 1/2⟩, ⟨s.signal.signal, some s.signal.strength, 3/10⟩] ∧
    (combineSignals t s mlFailed).reasoning.hold =
      bucketScore "HOLD"
        [⟨t.signal, none, 1/2⟩, ⟨s.signal.signal, some s.signal.strength, 3/10⟩] := by
  refine ⟨?_, ?_, ?_⟩
  · simp only [combineSignals, combineEntries, mlFailed, bucketScore]
    rw [show ([⟨t.signal, none, 1/2⟩, ⟨s.signal.signal, some s.signal.strength, 3/10⟩,
        ⟨"HOLD", some 0, 1/5⟩] : List WSignal) =
      [⟨t.signal, none, 1/2⟩, ⟨s.signal.signal, some s.signal.strength, 3/10⟩] ++
        [⟨"HOLD", some 0, 1/5⟩] from rfl]
    rw [List.filter_append, List.foldl_append]
    simp [List.filter_cons, List.filter_nil, hold_ne_buy, hold_ne_sell, buy_ne_sell, sell_ne_buy, buy_ne_hold, sell_ne_hold]
  · simp only [combineSignals, combineEntries, mlFailed, bucketScore]
    rw [show ([⟨t.signal, none, 1/2⟩, ⟨s.signal.signal, some s.signal.strength, 3/10⟩,
        ⟨"HOLD", some 0, 1/5⟩] : List WSignal) =
      [⟨t.signal, none, 1/2⟩, ⟨s.signal.signal, some s.signal.strength, 3/10⟩] ++
        [⟨"HOLD", some 0, 1/5⟩] from rfl]
    rw [List.filter_append, List.foldl_append]
    simp [List.filter_cons, List.filter_nil, hold_ne_buy, hold_ne_sell, buy_ne_sell, sell_ne_buy, buy_ne_hold, sell_ne_hold]
  · simp only [combineSignals, combineEntries, mlFailed, bucketScore]
    rw [show ([⟨t.signal, none, 1/2⟩, ⟨s.signal.signal, some s.signal.strength, 3/10⟩,
        ⟨"HOLD", some 0, 1/5⟩] : List WSignal) =
      [⟨t.signal, none, 1/2⟩, ⟨s.signal.signal, some s.signal.strength, 3/10⟩] ++
        [⟨"HOLD", some 0, 1/5⟩] from rfl]
    rw [List.filter_append, List.foldl_append]
    have htw : ((0 : ℚ) + 1/2 + 3/10 + 1/5) = 1 := by norm_num
    simp [List.filter_cons, List.filter_nil, jofOpt, jmul, jadd_num_zero, List.foldl, hold_ne_buy, hold_ne_sell, buy_ne_sell, sell_ne_buy, buy_ne_hold, sell_ne_hold]
    norm_num [jadd_num_zero]

theorem jsOr_nonneg (o : Option ℚ) (d : ℚ) (hd : 0 ≤ d)
    (ho : ∀ w, o = some w → 0 ≤ w) : 0 ≤ jsOr o d := by
  cases o with
  | none => simpa [jsOr] using hd
  | some v =>
      by_cases h : v = 0
      · simpa [jsOr, h] using hd
      · simpa [jsOr, h] using ho v rfl

/-- The Kelly fraction of the source is always clamped into [0, 0.05]. -/
theorem calculateKellyPosition_bounds (winRate avgWin avgLoss : ℚ) :
    0 ≤ calculateKellyPosition winRate avgWin avgLoss ∧
    calculateKellyPosition winRate avgWin avgLoss ≤ 1/20 := by
  simp only [calculateKellyPosition]
  split_ifs with h
  · norm_num
  · exact ⟨le_max_left 0 _, max_le (by norm_num) (min_le_right _ _)⟩

/-- Bounds for the position-size formula, abstracted over the adjusted
factors: confidence factor in [0, 1], volatility factor in [0, 1],
market factor in [0, 1], a non-negative Kelly cap, a positive portfolio
value and a non-negative trade-value cap. -/
theorem posSizeFormula_bounds (M ca va mAdj kelly pv minTV mtv : ℚ) (useK : Bool)
    (hM : 0 ≤ M) (hca0 : 0 ≤ ca) (hca1 : ca ≤ 1) (hva0 : 0 ≤ va) (hva1 : va ≤ 1)
    (hmA0 : 0 ≤ mAdj) (hmA1 : mAdj ≤ 1) (hk0 : 0 ≤ kelly) (hpv : 0 < pv)
    (hmtv : 0 ≤ mtv) :
    0 ≤ (if (if useK then min (M * ca * va * mAdj) kelly else M * ca * va * mAdj) * pv
          < minTV then 0
         else min (if useK then min (M * ca * va * mAdj) kelly else M * ca * va * mAdj)
           (mtv / pv)) ∧
    (if (if useK then min (M * ca * va * mAdj) kelly else M * ca * va * mAdj) * pv
        < minTV then 0
     else min (if useK then min (M * ca * va * mAdj) kelly else M * ca * va * mAdj)
       (mtv / pv)) ≤ M := by
  have hb3_0 : 0 ≤ M * ca * va * mAdj :=
    mul_nonneg (mul_nonneg (mul_nonneg hM hca0) hva0) hmA0
  have hb3_le : M * ca * va * mAdj ≤ M :=
    calc M * ca * va * mAdj ≤ M * ca * va :=
          mul_le_of_le_one_right (mul_nonneg (mul_nonneg hM hca0) hva0) hmA1
      _ ≤ M * ca := mul_le_of_le_one_right (mul_nonneg hM hca0) hva1
      _ ≤ M := mul_le_of_le_one_right hM hca1
  set b4 := (if useK then min (M * ca * va * mAdj) kelly else M * ca * va * mAdj) with hb4def
  have hb4_0 : 0 ≤ b4 := by
    rw [hb4def]
    cases useK
    · simpa using hb3_0
    · simpa using le_min hb3_0 hk0
  have hb4_le : b4 ≤ M := by
    rw [hb4def]
    cases useK
    · simpa using hb3_le
    · simpa using le_trans (min_le_left _ _) hb3_le
  split_ifs with h
  · exact ⟨le_refl 0, hM⟩
  · exact ⟨le_min hb4_0 (div_nonneg hmtv hpv.le), le_trans (min_le_left _ _) hb4_le⟩

/-- Under valid inputs, the computed position size stays in
[0, maxPositionSize]. -/
theorem calculatePositionSize_bounds (env : RiskEnv)
    (hc0 : 0 ≤ env.analysis.confidence) (hc1 : env.analysis.confidence ≤ 1)
    (hv : 0 ≤ env.assetVolatility)
    (hm : 0 ≤ env.config.riskSettings.maxPositionSize)
    (htv : ∀ w, env.config.riskSettings.maxTradeValue = some w → 0 ≤ w) :
    0 ≤ calculatePositionSize env ∧
    calculatePositionSize env ≤ env.config.riskSettings.maxPositionSize := by
  have hpv : (0:ℚ) < max env.rawPortfolioValue 1000 :=
    lt_of_lt_of_le (by norm_num) (le_max_right _ _)
  have hkelly := calculateKellyPosition_bounds env.winRate env.avgWin env.avgLoss
  have hmtv : 0 ≤ jsOr env.config.riskSettings.maxTradeValue
      (max env.rawPortfolioValue 1000 * (1/10)) :=
    jsOr_nonneg _ _ (by positivity) htv
  have hmA0 : (0:ℚ) ≤
      (if (assessMarketConditions env.conditions).level = RiskLvl.HIGH then 1/2
       else if (assessMarketConditions env.conditions).level = RiskLvl.MEDIUM then 7/10
       else 1) := by
    split_ifs <;> norm_num
  have hmA1 :
      (if (assessMarketConditions env.conditions).level = RiskLvl.HIGH then (1:ℚ)/2
       else if (assessMarketConditions env.conditions).level = RiskLvl.MEDIUM then 7/10
       else 1) ≤ 1 := by
    split_ifs <;> norm_num
  simp only [calculatePositionSize]
  exact posSizeFormula_bounds env.config.riskSettings.maxPositionSize
    (env.analysis.confidence * (4/5) + 1/5) (max (3/10) (1 - env.assetVolatility)) _
    (calculateKellyPosition env.winRate env.avgWin env.avgLoss)
    (max env.rawPortfolioValue 1000) (jsOr env.config.riskSettings.minTradeValue 10)
    (jsOr env.config.riskSettings.maxTradeValue (max env.rawPortfolioValue 1000 * (1/10)))
    env.config.riskSettings.useKellyCriterion
    hm (by linarith) (by linarith) (le_max_of_le_left (by norm_num))
    (max_le (by norm_num) (by linarith)) hmA0 hmA1 hkelly.1 hpv hmtv

/-- C2: every assessment returned by `evaluateOpportunity` has
`recommendedSize ∈ [0, maxPositionSize]`, and an approved assessment has
a strictly positive size and a non-empty approved platform list. -/
theorem risk_assessment_invariant (env : RiskEnv)
    (hc0 : 0 ≤ env.analysis.confidence) (hc1 : env.analysis.confidence ≤ 1)
    (hv : 0 ≤ env.assetVolatility)
    (hm : 0 ≤ env.config.riskSettings.maxPositionSize)
    (htv : ∀ w, env.config.riskSettings.maxTradeValue = some w → 0 ≤ w) :
    (0 ≤ (evaluateOpportunity env).recommendedSize ∧
      (evaluateOpportunity env).recommendedSize ≤
        env.config.riskSettings.maxPositionSize) ∧
    ((evaluateOpportunity env).approved = true →
      0 < (evaluateOpportunity env).recommendedSize ∧
      (evaluateOpportunity env).approvedPlatforms ≠ []) := by
  have hb := calculatePositionSize_bounds env hc0 hc1 hv hm htv
  simp only [evaluateOpportunity]
  split_ifs with h1 h2 h3 h4 h5 h6 h7
  · exact ⟨⟨le_refl 0, hm⟩, by simp [rejectedAssessment]⟩
  · exact ⟨⟨le_refl 0, hm⟩, by simp [rejectedAssessment]⟩
  · exact ⟨⟨le_refl 0, hm⟩, by simp [rejectedAssessment]⟩
  · exact ⟨⟨le_refl 0, hm⟩, by simp [rejectedAssessment]⟩
  · exact ⟨⟨le_refl 0, hm⟩, by simp [rejectedAssessment]⟩
  · exact ⟨⟨le_refl 0, hm⟩, by simp [rejectedAssessment]⟩
  · exact ⟨⟨le_refl 0, hm⟩, by simp [rejectedAssessment]⟩
  · exact ⟨hb, fun _ => ⟨not_le.mp h5, fun heq => h7 (List.length_eq_zero.mpr heq)⟩⟩

/-- Witness for C2 at a complete healthy environment. -/
theorem risk_assessment_invariant_witness :
    (0 ≤ (evaluateOpportunity envW).recommendedSize ∧
      (evaluateOpportunity envW).recommendedSize ≤
        envW.config.riskSettings.maxPositionSize) ∧
    ((evaluateOpportunity envW).approved = true →
      0 < (evaluateOpportunity envW).recommendedSize ∧
      (evaluateOpportunity envW).approvedPlatforms ≠ []) :=
  risk_assessment_invariant envW (by norm_num [envW]) (by norm_num [envW])
    (by norm_num [envW]) (by norm_num [envW])
    (by intro w hw; simp [envW] at hw)
